import Mathlib

/-!
Shallow embedding of the ionLog crate (src/src/lib.rs) together with the parts
of its direct dependencies that decide its behaviour: the log 0.3 facade
(level types, set_logger, shutdown_logger, the macro-side level filter) and
the ansi_term colour painting.  Machine effects (stdout, the file system,
panics) are made explicit: stateful operations take and return explicit state
values, and a computation that may panic returns a RunResult carrying the
state at the moment of the panic.
-/

namespace IonLog

/-- Outcome of a Rust computation that may panic: either a normal return with
the updated state and a value, or a panic, carrying the state visible at the
moment of the unwinding. -/
inductive RunResult (σ : Type) (α : Type) where
  | ok : σ → α → RunResult σ α
  | panicked : σ → RunResult σ α
deriving DecidableEq

/-- The log 0.3 crate's LogLevel enum (re-exported discriminants: Error = 1,
Warn = 2, Info = 3, Debug = 4, Trace = 5). -/
inductive LogLevel where
  | Error
  | Warn
  | Info
  | Debug
  | Trace
deriving DecidableEq

/-- Discriminant of a LogLevel, as used by the log crate's PartialOrd
implementation (the enum value cast to usize). -/
def LogLevel.toNat : LogLevel → Nat
  | .Error => 1
  | .Warn => 2
  | .Info => 3
  | .Debug => 4
  | .Trace => 5

/-- Display of a LogLevel in the log 0.3 crate: the entry of
LOG_LEVEL_NAMES = ["OFF", "ERROR", "WARN", "INFO", "DEBUG", "TRACE"] at the
discriminant. -/
def LogLevel.display : LogLevel → String
  | .Error => "ERROR"
  | .Warn => "WARN"
  | .Info => "INFO"
  | .Debug => "DEBUG"
  | .Trace => "TRACE"

/-- The log 0.3 crate's LogLevelFilter enum (discriminants: Off = 0,
Error = 1, Warn = 2, Info = 3, Debug = 4, Trace = 5).  The ionLog crate
re-exports it as its public LogLevel configuration type. -/
inductive LogLevelFilter where
  | Off
  | Error
  | Warn
  | Info
  | Debug
  | Trace
deriving DecidableEq

/-- Discriminant of a LogLevelFilter as usize. -/
def LogLevelFilter.toNat : LogLevelFilter → Nat
  | .Off => 0
  | .Error => 1
  | .Warn => 2
  | .Info => 3
  | .Debug => 4
  | .Trace => 5

/-- The filter value naming the same level as a LogLevel. -/
def LogLevel.toFilter : LogLevel → LogLevelFilter
  | .Error => .Error
  | .Warn => .Warn
  | .Info => .Info
  | .Debug => .Debug
  | .Trace => .Trace

/-- The LogConfig struct of src/src/lib.rs.  The source field log_to_io
(whether to log to the terminal) is rendered here as log_to_term; all other
field names are kept verbatim. -/
structure LogConfig where
  log_to_term : Bool
  log_to_file : Bool
  log_output_path : String
  coloured_output : Bool
  max_log_level : LogLevelFilter
deriving DecidableEq

/-- LogConfig::new: terminal sink on, file sink off, empty output path,
coloured output on, maximum level Trace. -/
def LogConfig.new : LogConfig :=
  { log_to_term := true
    log_to_file := false
    log_output_path := ""
    coloured_output := true
    max_log_level := .Trace }

/-- A log record as the log 0.3 crate hands it to Log::log: the call site's
module path and line, the event's level and the formatted message text. -/
structure LogRecord where
  module_path : String
  line : Nat
  level : LogLevel
  args : String
deriving DecidableEq

/-- The Logger struct of src/src/lib.rs holds a private copy of the
configuration (the BufWriter sink state is modelled separately in
SinkState). -/
structure Logger where
  config : LogConfig
deriving DecidableEq

/-- Observable state of the two sinks: everything written to standard
output, the bytes present in the output file, and the bytes sitting in the
BufWriter's internal buffer (not yet in the file). -/
structure SinkState where
  terminal : String
  fileData : List Char
  bufData : List Char
deriving DecidableEq

/-- Environment choice for one dispatch: whether the stdout write behind
println! succeeds, and the io::Result of the single File::write call (Ok k
means the kernel accepted the first k bytes). -/
structure WriteOracle where
  termOk : Bool
  fileResult : Except Unit Nat

/-- Logger::enabled of src/src/lib.rs: metadata.level () <= config.max_log_level,
where the log crate compares the two enums by their usize discriminants. -/
def Logger.enabled (self : Logger) (level : LogLevel) : Bool :=
  decide (level.toNat ≤ self.config.max_log_level.toNat)

/-- Logger::format_log_string of src/src/lib.rs:
format! ("[{} - {}] {}: {}\n", module_path, line, level, args). -/
def Logger.format_log_string (self : Logger) (record : LogRecord) : String :=
  "[" ++ record.module_path ++ " - " ++ Nat.repr record.line ++ "] "
    ++ record.level.display ++ ": " ++ record.args ++ "\n"

/-- The ansi_term colours used by src/src/lib.rs. -/
inductive Colour where
  | Green
  | Blue
  | Purple
  | Yellow
  | Red
deriving DecidableEq

/-- The ansi_term foreground code of each colour. -/
def Colour.fgCode : Colour → Nat
  | .Green => 32
  | .Blue => 34
  | .Purple => 35
  | .Yellow => 33
  | .Red => 31

/-- ansi_term Colour::paint rendered to a String: the escape sequence
ESC [ code m, the painted text, then the reset sequence ESC [ 0 m. -/
def Colour.paint (c : Colour) (s : String) : String :=
  "\x1b[" ++ Nat.repr c.fgCode ++ "m" ++ s ++ "\x1b[0m"

/-- Logger::format_log_colour of src/src/lib.rs: paint the whole formatted
line with the colour matched from the record's level. -/
def Logger.format_log_colour (self : Logger) (record : LogRecord)
    (log_string : String) : String :=
  match record.level with
  | .Trace => Colour.Green.paint log_string
  | .Debug => Colour.Blue.paint log_string
  | .Info => Colour.Purple.paint log_string
  | .Warn => Colour.Yellow.paint log_string
  | .Error => Colour.Red.paint log_string

/-- Logger::log of src/src/lib.rs.  It formats the record, then if
log_to_io prints the (possibly colourised) line via println! (which appends
a newline and panics when the stdout write fails), then if log_to_file calls
write on the BufWriter's underlying File obtained through get_ref — one raw
write, bypassing the buffer — and unwraps the io::Result, discarding the
accepted byte count. -/
def Logger.log (self : Logger) (orc : WriteOracle) (st : SinkState)
    (record : LogRecord) : RunResult SinkState Unit :=
  let log_string := self.format_log_string record
  if self.config.log_to_term && !orc.termOk then
    .panicked st
  else
    let st1 :=
      if self.config.log_to_term then
        { st with terminal := st.terminal
            ++ (if self.config.coloured_output then
                  self.format_log_colour record log_string
                else log_string) ++ "\n" }
      else st
    if self.config.log_to_file then
      match orc.fileResult with
      | .error _ => .panicked st1
      | .ok k =>
          .ok { st1 with fileData := st1.fileData ++ log_string.data.take k } ()
    else
      .ok st1 ()

/-- One event travelling through the installed facade: the log 0.3 macro
forwards the record to Logger::log only when its level passes the global
maximum level, which init sets to the very value compared by
Logger::enabled, so the gate is Logger::enabled itself. -/
def dispatchEvent (self : Logger) (orc : WriteOracle) (st : SinkState)
    (record : LogRecord) : RunResult SinkState Unit :=
  if self.enabled record.level then self.log orc st record else .ok st ()

/-- The error value log::set_logger returns when a logger is already
installed. -/
inductive SetLoggerError where
  | already_set
deriving DecidableEq

/-- Process-global facade state: the installed logger's configuration copy
(none before init and after release), the global atomic maximum level
(initially Off), and the list of paths on which File::create has been
invoked (each invocation creates or truncates the file when it succeeds). -/
structure InitWorld where
  logger : Option LogConfig
  max_level : LogLevelFilter
  createCalls : List String
deriving DecidableEq

/-- The facade state of a freshly started process. -/
def InitWorld.start : InitWorld :=
  { logger := none, max_level := .Off, createCalls := [] }

/-- init of src/src/lib.rs on top of log::set_logger.  set_logger refuses
when a logger is already installed, without running the construction
closure.  Otherwise the closure runs: it first sets the global maximum level
to config.max_log_level, then builds the Logger, unconditionally calling
File::create (config.log_output_path) and unwrapping the result — a failing
create therefore panics, after the maximum level was already stored and the
create call was already issued.  canCreate says which paths the file system
lets File::create succeed on. -/
def init (canCreate : String → Bool) (w : InitWorld) (config : LogConfig) :
    RunResult InitWorld (Except SetLoggerError Unit) :=
  match w.logger with
  | some _ => .ok w (.error .already_set)
  | none =>
      let w1 := { w with
        max_level := config.max_log_level
        createCalls := w.createCalls ++ [config.log_output_path] }
      if canCreate config.log_output_path then
        .ok { w1 with logger := some config } (.ok ())
      else
        .panicked w1

/-- release of src/src/lib.rs: drop (log::shutdown_logger ().unwrap ()).
shutdown_logger errs when no logger is installed, and the unwrap turns that
error into a panic; on success the logger is detached and dropped and the
global maximum level falls back to Off. -/
def release (w : InitWorld) : RunResult InitWorld Unit :=
  match w.logger with
  | none => .panicked w
  | some _ => .ok { w with logger := none, max_level := .Off } ()

/-- Rank of a level in the spec's severity order Trace < Debug < Info <
Warn < Error (larger rank means more severe). -/
def sevRank : LogLevel → Nat
  | .Trace => 0
  | .Debug => 1
  | .Info => 2
  | .Warn => 3
  | .Error => 4

/-- Modelled from the spec: the canonical upper-case severity name used in
the formatted line of section 4.4. -/
def specLevelName : LogLevel → String
  | .Trace => "TRACE"
  | .Debug => "DEBUG"
  | .Info => "INFO"
  | .Warn => "WARN"
  | .Error => "ERROR"

/-- Modelled from the spec: the fixed severity-to-colour table of section
4.5 (Trace to green, Debug to blue, Info to purple, Warn to yellow, Error to
red). -/
def specSeverityColour : LogLevel → Colour
  | .Trace => .Green
  | .Debug => .Blue
  | .Info => .Purple
  | .Warn => .Yellow
  | .Error => .Red

/-- The ASCII escape character that opens every ANSI colour sequence. -/
def escChar : Char := '\x1b'

/-- Removing the colour wrapper that Colour.paint added: drop the five-char
opening sequence and the four-char reset suffix. -/
def stripColourWrap (s : String) : String :=
  String.mk ((s.data.drop 5).take (s.data.length - 9))

/-- The state a RunResult exposes, whether the computation returned or
panicked. -/
def RunResult.state {σ α : Type} : RunResult σ α → σ
  | .ok s _ => s
  | .panicked s => s

theorem data_append (s t : String) : (s ++ t).data = s.data ++ t.data := rfl

theorem mk_data (s : String) : String.mk s.data = s := rfl

theorem stripColourWrap_append (pre s suf : String)
    (hp : pre.data.length = 5) (hq : suf.data.length = 4) :
    stripColourWrap (pre ++ s ++ suf) = s := by
  unfold stripColourWrap
  rw [data_append, data_append]
  have hdrop : ((pre.data ++ s.data) ++ suf.data).drop 5 = s.data ++ suf.data := by
    rw [List.append_assoc, ← hp, List.drop_left]
  have hlen : ((pre.data ++ s.data) ++ suf.data).length - 9 = s.data.length := by
    simp only [List.length_append, hp, hq]
    omega
  rw [hdrop, hlen, List.take_left, mk_data]

theorem stripColourWrap_paint (c : Colour) (s : String) :
    stripColourWrap (c.paint s) = s := by
  cases c <;> exact stripColourWrap_append _ s _ (by decide) (by decide)

/-- C1: an event is handed to Logger::log, formatted and written to the
enabled sinks, exactly when its severity is at least the configured maximum
level under Trace < Debug < Info < Warn < Error; equality at the threshold
passes, and a strictly less severe event leaves every sink untouched. -/
theorem c1_level_filtering (c : LogConfig) (m : LogLevel) (r : LogRecord)
    (orc : WriteOracle) (st : SinkState) :
    (Logger.enabled ⟨{ c with max_log_level := m.toFilter }⟩ r.level = true
        ↔ sevRank m ≤ sevRank r.level)
    ∧ (sevRank r.level < sevRank m →
        dispatchEvent ⟨{ c with max_log_level := m.toFilter }⟩ orc st r
          = .ok st ())
    ∧ (sevRank m ≤ sevRank r.level →
        dispatchEvent ⟨{ c with max_log_level := m.toFilter }⟩ orc st r
          = Logger.log ⟨{ c with max_log_level := m.toFilter }⟩ orc st r) := by
  rcases r with ⟨mp, ln, l, msg⟩
  cases m <;> cases l <;>
    simp [dispatchEvent, Logger.enabled, sevRank, LogLevel.toFilter,
      LogLevel.toNat, LogLevelFilter.toNat]

/-- C2: the formatted line for a record with module path m, line n, level L
and message s is exactly the single line [m - n] L: s followed by a newline,
with L the canonical upper-case severity name; in particular a Warn event
hello at line 42 in app::main formats to [app::main - 42] WARN: hello
followed by a newline. -/
theorem c2_format_shape :
    (∀ (self : Logger) (mp : String) (ln : Nat) (l : LogLevel) (msg : String),
      Logger.format_log_string self ⟨mp, ln, l, msg⟩
        = "[" ++ mp ++ " - " ++ Nat.repr ln ++ "] " ++ specLevelName l ++ ": "
            ++ msg ++ "\n")
    ∧ Logger.format_log_string ⟨LogConfig.new⟩ ⟨"app::main", 42, .Warn, "hello"⟩
        = "[app::main - 42] WARN: hello\n" := by
  constructor
  · intro self mp ln l msg
    cases l <;> rfl
  · rfl

theorem digitChar_ge16 (n : Nat) (h : 16 ≤ n) : Nat.digitChar n = '*' := by
  unfold Nat.digitChar
  repeat rw [if_neg (by omega)]

theorem digitChar_ne_esc (n : Nat) : Nat.digitChar n ≠ escChar := by
  by_cases h : n < 16
  · interval_cases n <;> decide
  · rw [digitChar_ge16 n (by omega)]; decide

theorem toDigitsCore_no_esc (b f n : Nat) (acc : List Char)
    (hacc : escChar ∉ acc) : escChar ∉ Nat.toDigitsCore b f n acc := by
  induction f generalizing n acc with
  | zero => simpa [Nat.toDigitsCore] using hacc
  | succ f ih =>
      unfold Nat.toDigitsCore
      dsimp only
      split
      · simp only [List.mem_cons, not_or]
        exact ⟨fun h => digitChar_ne_esc _ h.symm, hacc⟩
      · exact ih _ _ (by
          simp only [List.mem_cons, not_or]
          exact ⟨fun h => digitChar_ne_esc _ h.symm, hacc⟩)

theorem repr_no_esc (n : Nat) : escChar ∉ (Nat.repr n).data :=
  toDigitsCore_no_esc 10 (n + 1) n [] (by simp)

theorem format_no_esc (self : Logger) (r : LogRecord)
    (hm : escChar ∉ r.module_path.data) (ha : escChar ∉ r.args.data) :
    escChar ∉ (Logger.format_log_string self r).data := by
  rcases r with ⟨mp, ln, l, msg⟩
  simp only [Logger.format_log_string, data_append, List.mem_append, not_or]
  refine ⟨⟨⟨⟨⟨⟨⟨⟨by decide, hm⟩, by decide⟩, repr_no_esc ln⟩, by decide⟩, ?_⟩,
    by decide⟩, ha⟩, by decide⟩
  cases l <;> decide

theorem format_log_string_any (g : Logger) (r : LogRecord) :
    g.format_log_string r = Logger.format_log_string ⟨LogConfig.new⟩ r := rfl

theorem format_log_colour_any (g : Logger) (r : LogRecord) (s : String) :
    g.format_log_colour r s = Logger.format_log_colour ⟨LogConfig.new⟩ r s := rfl

theorem log_full_write_off (c : LogConfig) (b : Bool) (st : SinkState)
    (r : LogRecord) :
    Logger.log ⟨{ c with log_to_term := false, log_to_file := true, coloured_output := b }⟩
        ⟨true, .ok (Logger.format_log_string ⟨c⟩ r).data.length⟩ st r
      = .ok { st with
          fileData := st.fileData ++ (Logger.format_log_string ⟨c⟩ r).data } () := by
  unfold Logger.log
  simp only [Bool.not_true, Bool.and_false, Bool.false_and, Bool.false_eq_true,
    if_false, if_true, format_log_string_any, format_log_colour_any, List.take_length]

theorem log_full_write_on (c : LogConfig) (b : Bool) (st : SinkState)
    (r : LogRecord) :
    Logger.log ⟨{ c with log_to_term := true, log_to_file := true, coloured_output := b }⟩
        ⟨true, .ok (Logger.format_log_string ⟨c⟩ r).data.length⟩ st r
      = .ok { st with
          terminal := st.terminal
            ++ (if b then Logger.format_log_colour ⟨c⟩ r (Logger.format_log_string ⟨c⟩ r)
                else Logger.format_log_string ⟨c⟩ r) ++ "\n",
          fileData := st.fileData ++ (Logger.format_log_string ⟨c⟩ r).data } () := by
  unfold Logger.log
  simp only [Bool.not_true, Bool.and_false, Bool.true_and, Bool.false_eq_true,
    if_false, if_true, format_log_string_any, format_log_colour_any, List.take_length]

/-- C3: with the file sink enabled and the single write accepted in full,
the bytes appended to the file are exactly the plain formatted string of
section 4.4 and contain no ANSI escape character, for either value of the
coloured-output setting (colourisation touches only the terminal
rendering). -/
theorem c3_file_payload_plain (c : LogConfig) (b : Bool) (st : SinkState)
    (r : LogRecord)
    (hm : escChar ∉ r.module_path.data) (ha : escChar ∉ r.args.data) :
    ∃ st', Logger.log ⟨{ c with log_to_file := true, coloured_output := b }⟩
        ⟨true, .ok (Logger.format_log_string ⟨c⟩ r).data.length⟩ st r = .ok st' ()
      ∧ st'.fileData = st.fileData ++ (Logger.format_log_string ⟨c⟩ r).data
      ∧ escChar ∉ (Logger.format_log_string ⟨c⟩ r).data := by
  cases hio : c.log_to_term
  · exact ⟨_, log_full_write_off c b st r, rfl, format_no_esc ⟨c⟩ r hm ha⟩
  · exact ⟨_, log_full_write_on c b st r, rfl, format_no_esc ⟨c⟩ r hm ha⟩

/-- Witness for c3_file_payload_plain at a concrete configuration, record
and sink state. -/
theorem c3_file_payload_plain_witness :
    escChar ∉ ("app::main" : String).data ∧ escChar ∉ ("hello" : String).data
    ∧ (∃ st', Logger.log
          ⟨{ LogConfig.new with log_to_file := true, coloured_output := true }⟩
          ⟨true, .ok (Logger.format_log_string ⟨LogConfig.new⟩
              ⟨"app::main", 42, .Warn, "hello"⟩).data.length⟩
          ⟨"", [], []⟩ ⟨"app::main", 42, .Warn, "hello"⟩ = .ok st' ()
        ∧ st'.fileData = SinkState.fileData ⟨"", [], []⟩
            ++ (Logger.format_log_string ⟨LogConfig.new⟩
                  ⟨"app::main", 42, .Warn, "hello"⟩).data
        ∧ escChar ∉ (Logger.format_log_string ⟨LogConfig.new⟩
              ⟨"app::main", 42, .Warn, "hello"⟩).data) :=
  ⟨by decide, by decide,
    c3_file_payload_plain LogConfig.new true ⟨"", [], []⟩
      ⟨"app::main", 42, .Warn, "hello"⟩ (by decide) (by decide)⟩

/-- C9: with colour enabled the terminal line is the whole plain formatted
line wrapped in the ANSI colour fixed by the severity alone (Trace green,
Debug blue, Info purple, Warn yellow, Error red), stripping the wrapper
gives back exactly the plain line, and with colour disabled the terminal
line is the plain formatted string unmodified. -/
theorem c9_colour_wrapping (c : LogConfig) (r : LogRecord) (s : String)
    (fr : Except Unit Nat) (st : SinkState) :
    Logger.format_log_colour ⟨c⟩ r s = (specSeverityColour r.level).paint s
    ∧ stripColourWrap (Logger.format_log_colour ⟨c⟩ r s) = s
    ∧ (RunResult.state (Logger.log
          ⟨{ c with log_to_term := true, coloured_output := true }⟩
          ⟨true, fr⟩ st r)).terminal
        = st.terminal
            ++ (specSeverityColour r.level).paint (Logger.format_log_string ⟨c⟩ r)
            ++ "\n"
    ∧ (RunResult.state (Logger.log
          ⟨{ c with log_to_term := true, coloured_output := false }⟩
          ⟨true, fr⟩ st r)).terminal
        = st.terminal ++ Logger.format_log_string ⟨c⟩ r ++ "\n" := by
  obtain ⟨mp, ln, l, msg⟩ := r
  have h1 : ∀ (g : Logger) (t : String),
      Logger.format_log_colour g ⟨mp, ln, l, msg⟩ t
        = (specSeverityColour (LogRecord.mk mp ln l msg).level).paint t := by
    intro g t; cases l <;> rfl
  refine ⟨h1 ⟨c⟩ s, ?_, ?_, ?_⟩
  · rw [h1]; exact stripColourWrap_paint _ s
  · cases hf : c.log_to_file <;> cases fr <;>
      simp [Logger.log, RunResult.state, Logger.format_log_string, hf, h1]
  · cases hf : c.log_to_file <;> cases fr <;>
      simp [Logger.log, RunResult.state, Logger.format_log_string, hf]

/-- C10: the per-event file write hands the formatted bytes to one raw
write on the File behind get_ref, bypasses the BufWriter buffer, and drops
the accepted byte count, so a dispatch that reports no failure may leave
only a proper prefix of the line in the file. -/
theorem c10_raw_byte_count_discarded (c : LogConfig) (st : SinkState)
    (r : LogRecord) (k : Nat)
    (hk : k ≤ (Logger.format_log_string ⟨c⟩ r).data.length) :
    ∃ st', Logger.log ⟨{ c with log_to_term := false, log_to_file := true }⟩
        ⟨true, .ok k⟩ st r = .ok st' ()
      ∧ st'.fileData = st.fileData ++ (Logger.format_log_string ⟨c⟩ r).data.take k
      ∧ st'.bufData = st.bufData
      ∧ st'.terminal = st.terminal
      ∧ (k < (Logger.format_log_string ⟨c⟩ r).data.length →
          st'.fileData ≠ st.fileData ++ (Logger.format_log_string ⟨c⟩ r).data) := by
  refine ⟨{ st with fileData :=
      st.fileData ++ (Logger.format_log_string ⟨c⟩ r).data.take k },
    rfl, rfl, rfl, rfl, ?_⟩
  intro hlt heq
  have hlen := congrArg List.length heq
  simp only [List.length_append, List.length_take] at hlen
  omega

/-- Witness for c10_raw_byte_count_discarded: a three-byte accepted count
against a 29-byte line. -/
theorem c10_raw_byte_count_discarded_witness :
    3 ≤ (Logger.format_log_string ⟨LogConfig.new⟩
        ⟨"app::main", 42, .Warn, "hello"⟩).data.length
    ∧ (∃ st', Logger.log
          ⟨{ LogConfig.new with log_to_term := false, log_to_file := true }⟩
          ⟨true, .ok 3⟩ ⟨"", [], []⟩ ⟨"app::main", 42, .Warn, "hello"⟩ = .ok st' ()
        ∧ st'.fileData = SinkState.fileData ⟨"", [], []⟩
            ++ (Logger.format_log_string ⟨LogConfig.new⟩
                  ⟨"app::main", 42, .Warn, "hello"⟩).data.take 3
        ∧ st'.bufData = SinkState.bufData ⟨"", [], []⟩
        ∧ st'.terminal = SinkState.terminal ⟨"", [], []⟩
        ∧ (3 < (Logger.format_log_string ⟨LogConfig.new⟩
              ⟨"app::main", 42, .Warn, "hello"⟩).data.length →
            st'.fileData ≠ SinkState.fileData ⟨"", [], []⟩
              ++ (Logger.format_log_string ⟨LogConfig.new⟩
                    ⟨"app::main", 42, .Warn, "hello"⟩).data)) :=
  ⟨by decide,
    c10_raw_byte_count_discarded LogConfig.new ⟨"", [], []⟩
      ⟨"app::main", 42, .Warn, "hello"⟩ 3 (by decide)⟩

/-- C4: the claim that a per-event sink write failure never escapes the
logging call and never prevents the sibling sink is violated by the code:
at a concrete accepted event with both sinks enabled, a failing stdout
write makes Logger::log panic before the file write is attempted (the sink
state is returned untouched), and a failing file write makes the unwrap
panic as well. -/
theorem c4_write_failure_escapes :
    Logger.log ⟨{ LogConfig.new with log_to_file := true }⟩ ⟨false, .ok 0⟩
        ⟨"", [], []⟩ ⟨"app::main", 42, .Warn, "hello"⟩
      = .panicked ⟨"", [], []⟩
    ∧ Logger.log ⟨{ LogConfig.new with log_to_term := false, log_to_file := true }⟩
        ⟨true, .error ()⟩ ⟨"", [], []⟩ ⟨"app::main", 42, .Warn, "hello"⟩
      = .panicked ⟨"", [], []⟩ := ⟨rfl, rfl⟩

/-- C5: the claim that init returns a descriptive error when the output
file cannot be created is violated by the code: with the file sink enabled
and an unopenable path, init panics through the unwrap on File::create,
after the global maximum level was already set and the create call already
issued. -/
theorem c5_init_open_failure_panics :
    init (fun _ => false) InitWorld.start
        { LogConfig.new with log_to_file := true, log_output_path := "log.txt" }
      = .panicked { logger := none, max_level := .Trace, createCalls := ["log.txt"] } :=
  rfl

/-- C6: the claim that init touches the output file only when the file sink
is enabled is violated by the code: with the stock configuration (file sink
disabled, empty path) init still issues File::create on the configured
path, truncating it when it opens, and panicking when it does not. -/
theorem c6_init_touches_file_when_disabled :
    init (fun _ => true) InitWorld.start LogConfig.new
      = .ok { logger := some LogConfig.new, max_level := .Trace, createCalls := [""] }
          (.ok ())
    ∧ init (fun _ => false) InitWorld.start LogConfig.new
      = .panicked { logger := none, max_level := .Trace, createCalls := [""] } :=
  ⟨rfl, rfl⟩

/-- C7: the claim that release reports a ReleaseError result when no logger
is installed is violated by the code: release unwraps shutdown_logger and
panics in that situation; after a successful init, release does succeed. -/
theorem c7_release_panics_when_uninstalled :
    release InitWorld.start = .panicked InitWorld.start
    ∧ release { logger := some LogConfig.new, max_level := .Trace, createCalls := [""] }
      = .ok { logger := none, max_level := .Off, createCalls := [""] } () :=
  ⟨rfl, rfl⟩

/-- C8: a second init while a logger is installed returns the error from
set_logger without running the construction closure: the installed logger,
the global maximum level and the file system are all left exactly as they
were. -/
theorem c8_second_init_rejected (c0 c' : LogConfig) (ml : LogLevelFilter)
    (calls : List String) (canCreate : String → Bool) :
    init canCreate ⟨some c0, ml, calls⟩ c'
      = .ok ⟨some c0, ml, calls⟩ (.error .already_set) :=
  rfl

end IonLog
